import Mathlib

/-!
Verification development for the stock-advisor chat frontend.

The definitions below are a shallow embedding of the TypeScript source:

* `src/frontend/components/StockManager.tsx` — the `ChatInterface`
  component: `handleSubmit`, `processMessage`, `extractStockSymbols`,
  `extractRiskTolerance`, `extractInvestmentAmount`,
  `formatPortfolioResponse`.
* `src/frontend/lib/utils.ts` — `parseStockSymbols`.
* `src/frontend/lib/api.ts` — the response record shapes; the HTTP calls
  themselves are modelled as an abstract `Backend` whose operations either
  return a structured response or fail (a rejected promise).

Strings are modelled through their character lists; JavaScript numbers are
modelled as rationals (`ℚ`), with `Option ℚ` where `NaN` can arise
(`none` = `NaN`).  All string primitives used by the source
(`toLowerCase`, `toUpperCase`, `trim`, `split(',')`, `includes`) act on
ASCII data here, which covers every literal the source matches against.
-/

/-- ASCII uppercase letter, the character class `[A-Z]`. -/
def isUpperAlpha (c : Char) : Bool := 'A' ≤ c && c ≤ 'Z'

/-- ASCII digit, the character class `\d`. -/
def isDigitCh (c : Char) : Bool := '0' ≤ c && c ≤ '9'

/-- The character class `[\d,]` of the investment-amount regex. -/
def isDigitComma (c : Char) : Bool := isDigitCh c || c = ','

/-- `leadsWith pat l` : `pat` is an initial segment of `l`. -/
def leadsWith : List Char → List Char → Bool
  | [], _ => true
  | _ :: _, [] => false
  | p :: ps, c :: cs => p == c && leadsWith ps cs

/-- Substring test on character lists (JavaScript `String.includes`). -/
def hasSubstr (pat : List Char) : List Char → Bool
  | [] => pat.isEmpty
  | c :: t => leadsWith pat (c :: t) || hasSubstr pat t

/-- JavaScript `s.includes(pat)`. -/
def scontains (s pat : String) : Bool := hasSubstr pat.data s.data

/-- JavaScript `toLowerCase` (ASCII). -/
def lowerS (s : String) : String := String.mk (s.data.map Char.toLower)

/-- Whitespace characters removed by `trim`. -/
def wsCh (c : Char) : Bool := c = ' ' || c = '\t' || c = '\n' || c = '\r'

/-- JavaScript `trim` on character lists. -/
def jsTrim (l : List Char) : List Char :=
  ((l.dropWhile wsCh).reverse.dropWhile wsCh).reverse

/-- JavaScript `s.trim()`. -/
def jsTrimS (s : String) : String := String.mk (jsTrim s.data)

/-- JavaScript `split(',')` on character lists: `"a,,b" ↦ ["a","","b"]`. -/
def splitComma : List Char → List (List Char)
  | [] => [[]]
  | c :: t =>
    if c = ',' then [] :: splitComma t
    else
      match splitComma t with
      | h :: r => (c :: h) :: r
      | [] => [[c]]

/-- `match[1].split(',').map(s => s.trim().toUpperCase())` applied to one
regex capture, shared by both extraction routines. -/
def tokensOfCapture (cap : List Char) : List String :=
  (splitComma cap).map (fun t => String.mk ((jsTrim t).map Char.toUpper))

/-- Left-to-right scan behind `bracketContents`.  The first argument is
`none` outside a match attempt and `some acc` (content so far, reversed)
after an unclosed `[`.  A `]` with nonempty content closes a match; a `]`
with empty content abandons the attempt exactly as the regex engine does
(the engine re-starts right after the `[`, and every character up to this
`]` restarts nothing). -/
def bracketScan : Option (List Char) → List Char → List (List Char)
  | _, [] => []
  | none, c :: t => if c = '[' then bracketScan (some []) t else bracketScan none t
  | some acc, c :: t =>
    if c = ']' then
      if acc.isEmpty then bracketScan none t
      else acc.reverse :: bracketScan none t
    else bracketScan (some (c :: acc)) t

/-- All capture groups of the global regex `/\[([^\]]+)\]/g`, in match
order: each is a nonempty run of non-`]` characters between `[` and `]`. -/
def bracketContents (l : List Char) : List (List Char) := bracketScan none l

/-- Left-to-right scan behind `upperRuns`; the accumulator holds the
current run of uppercase letters, reversed. -/
def upperScan : List Char → List Char → List (List Char)
  | acc, [] => if acc.isEmpty then [] else [acc.reverse]
  | acc, c :: t =>
    if isUpperAlpha c then upperScan (c :: acc) t
    else if acc.isEmpty then upperScan [] t
    else acc.reverse :: upperScan [] t

/-- Maximal runs of uppercase letters in the text. -/
def upperRuns (l : List Char) : List (List Char) := upperScan [] l

/-- Scan behind `chunk5`: `k` characters may still join the current chunk
(held reversed in `acc`). -/
def chunkScan : Nat → List Char → List Char → List (List Char)
  | _, acc, [] => if acc.isEmpty then [] else [acc.reverse]
  | 0, acc, c :: t => acc.reverse :: chunkScan 4 [c] t
  | k + 1, acc, c :: t => chunkScan k (c :: acc) t

/-- Greedy chunks of at most five characters: the successive matches that
the global regex `/([A-Z]{1,5})/g` produces inside one uppercase run. -/
def chunk5 : List Char → List (List Char)
  | [] => []
  | c :: t => chunkScan 4 [c] t

/-- `/^[A-Z]+$/.test(symbol)`. -/
def matchesUpperPlus (s : String) : Bool :=
  !s.data.isEmpty && s.data.all isUpperAlpha

/-- The filter of `parseStockSymbols` in `src/frontend/lib/utils.ts`:
`symbol.length <= 5 && /^[A-Z]+$/.test(symbol)`. -/
def isValidSymbol (s : String) : Bool :=
  decide (s.length ≤ 5) && matchesUpperPlus s

/-- All capture groups produced by the two patterns of
`parseStockSymbols`, in the order the source visits them: first every
bracket group of `/\[([^\]]+)\]/g`, then every bare match of
`/([A-Z]{1,5})/g`, each put through `split(',').map(trim ∘ toUpperCase)`. -/
def symbolCandidates (input : String) : List String :=
  ((bracketContents input.data).map tokensOfCapture).flatten
  ++ (((upperRuns input.data).map chunk5).flatten.map tokensOfCapture).flatten

/-- `parseStockSymbols` of `src/frontend/lib/utils.ts`: every candidate
passing the symbol filter is added to an insertion-ordered set. -/
def parseStockSymbols (input : String) : List String :=
  (symbolCandidates input).foldl
    (fun acc s => if isValidSymbol s && !(acc.contains s) then acc ++ [s] else acc) []

/-- `extractStockSymbols` of the `ChatInterface` component: the first
match of `/\[([^\]]+)\]/` split on commas, trimmed and upper-cased — no
validation, no de-duplication — and `[]` when no bracket matches. -/
def extractStockSymbols (text : String) : List String :=
  match bracketContents text.data with
  | content :: _ => tokensOfCapture content
  | [] => []

/-- `extractRiskTolerance` of the `ChatInterface` component.  The caller
passes the already lower-cased message. -/
def extractRiskTolerance (text : String) : String :=
  if scontains text "conservative" || scontains text "safe" then "conservative"
  else if scontains text "aggressive" || scontains text "growth" then "aggressive"
  else "balanced"

/-- The capture group of the first match of `/\$?([\d,]+(?:\.\d{2})?)/` at
one position: a nonempty greedy `[\d,]+` run, then `.dd` when two digits
follow a dot. -/
def grabNum (l : List Char) : Option (List Char) :=
  let run := l.takeWhile isDigitComma
  if run.isEmpty then none
  else
    match l.drop run.length with
    | '.' :: d1 :: d2 :: _ =>
      if isDigitCh d1 && isDigitCh d2 then some (run ++ ['.', d1, d2]) else some run
    | _ => some run

/-- Scan for the first match of `/\$?([\d,]+(?:\.\d{2})?)/` and return its
capture group: at each position the engine tries `$`-then-number, falls
back to a bare number, and otherwise advances one character. -/
def amountScan : List Char → Option (List Char)
  | [] => none
  | c :: rest =>
    if c = '$' then
      match grabNum rest with
      | some cap => some cap
      | none => amountScan rest
    else
      match grabNum (c :: rest) with
      | some cap => some cap
      | none => amountScan rest

/-- JavaScript `replace(',', '')` with a string pattern: only the first
occurrence is removed. -/
def removeFirstComma : List Char → List Char
  | [] => []
  | c :: t => if c = ',' then t else c :: removeFirstComma t

/-- Decimal value of a digit list. -/
def digitsToNat (l : List Char) : Nat :=
  l.foldl (fun a c => a * 10 + (c.toNat - '0'.toNat)) 0

/-- The digit strings (integer part, fraction part) of the longest
numeric prefix of `l`, or `none` when there is none (`parseFloat`
returning `NaN`).  Restricted to the strings the amount extractor can
produce: digits, commas and at most one dot. -/
def parseFloatParts (l : List Char) : Option (List Char × List Char) :=
  let ds := l.takeWhile isDigitCh
  match l.drop ds.length with
  | '.' :: r2 =>
    let fs := r2.takeWhile isDigitCh
    if ds.isEmpty && fs.isEmpty then none else some (ds, fs)
  | _ => if ds.isEmpty then none else some (ds, [])

/-- JavaScript `parseFloat` on such a string: the value of the numeric
prefix, `none` modelling `NaN`. -/
def jsParseFloat (l : List Char) : Option ℚ :=
  (parseFloatParts l).map
    (fun p => (digitsToNat p.1 : ℚ) + (digitsToNat p.2 : ℚ) / 10 ^ p.2.length)

/-- `extractInvestmentAmount` of the `ChatInterface` component.  `none`
models the `NaN` result of `parseFloat`; no regex match gives the default
`10000`. -/
def extractInvestmentAmount (text : String) : Option ℚ :=
  match amountScan text.data with
  | some cap => jsParseFloat (removeFirstComma cap)
  | none => some 10000

/-! ## Response shapes (`src/frontend/lib/api.ts`)

JavaScript numbers are modelled as `ℚ` (share counts as `ℕ`, which is
what the backend supplies and what `${allocation.shares}` renders).
Optional fields are `Option`; interpolating an absent field prints
`"undefined"` in JavaScript, see `jsInterp`. -/

structure ClusterData where
  size : Nat
  avg_return : ℚ
  avg_volatility : ℚ
  avg_sharpe : ℚ
  risk_level : String
  stocks : List String
deriving DecidableEq

structure ClusterResponse where
  success : Bool
  clusters : List (String × ClusterData)
  message : Option String
deriving DecidableEq

structure CustomStockResponse where
  success : Bool
  message : String
  added : Option (List String)
  failed : Option (List String)
  removed : Option (List String)
  not_found : Option (List String)
  total_custom_stocks : Nat
deriving DecidableEq

structure PortfolioAllocation where
  weight : ℚ
  dollar_amount : ℚ
  shares : Nat
deriving DecidableEq

structure Portfolio where
  allocations : List (String × PortfolioAllocation)
  expected_return : ℚ
  volatility : ℚ
  sharpe_ratio : ℚ
  net_return : Option ℚ
  net_sharpe_ratio : Option ℚ
  total_investment : ℚ
  transaction_costs : Option (List ℚ)
deriving DecidableEq

structure BacktestResults where
  total_return : ℚ
  annual_return : ℚ
  volatility : ℚ
  sharpe_ratio : ℚ
  max_drawdown : ℚ
  cumulative_returns : List ℚ
  dates : List String
  benchmark_returns : List ℚ
  portfolio_returns : List ℚ
deriving DecidableEq

structure RecommendationResponse where
  success : Bool
  portfolio : Portfolio
  backtest : BacktestResults
  selected_stocks : List String
  message : Option String
deriving DecidableEq

structure ListStocksResponse where
  success : Bool
  custom_stocks : List String
  total_custom_stocks : Nat
  total_available_stocks : Nat
  sp500_stocks_count : Nat
deriving DecidableEq

deriving instance DecidableEq for Except

/-- The four operations `processMessage` can invoke through `apiService`.
Each either resolves to a response or rejects (`Except.error ()`), which
models a transport failure. -/
structure Backend where
  initializeSystem : Except Unit ClusterResponse
  addCustomStocks : List String → Except Unit CustomStockResponse
  getRecommendations : String → Option ℚ → Except Unit RecommendationResponse
  listCustomStocks : Except Unit ListStocksResponse

/-- JavaScript string interpolation of a possibly absent field. -/
def jsInterp : Option String → String
  | some s => s
  | none => "undefined"

/-! ## Response formatting (`formatPortfolioResponse`) -/

/-- Decimal-digit string of a natural number padded on the left with
zeros to `d` digits. -/
def padFrac (d : Nat) (s : String) : String :=
  String.mk (List.replicate (d - s.length) '0') ++ s

/-- JavaScript `Number.prototype.toFixed(digits)` over exact rationals:
the integer closest to `x·10^digits` (ties towards the larger), rendered
with exactly `digits` fraction digits.  (Float representation error of
the host is not modelled.) -/
def toFixed (digits : Nat) (x : ℚ) : String :=
  let n : ℤ := ⌊x * 10 ^ digits + 1 / 2⌋
  let sign := if n < 0 then "-" else ""
  let m := n.natAbs
  if digits = 0 then sign ++ toString m
  else sign ++ toString (m / 10 ^ digits) ++ "." ++ padFrac digits (toString (m % 10 ^ digits))

/-- One line of the Top Allocations section:
`• SYMBOL: weight% (N shares)` with the weight at one decimal. -/
def allocationLine (e : String × PortfolioAllocation) : String :=
  "• " ++ e.1 ++ ": " ++ toFixed 1 (e.2.weight * 100) ++ "% (" ++ toString e.2.shares ++ " shares)"

/-- `Object.entries(portfolio.allocations).slice(0, 5).map(...).join('\n')`. -/
def allocationsSection (p : Portfolio) : String :=
  String.intercalate "\n" ((p.allocations.take 5).map allocationLine)

/-- The fixed closing sentence of every recommendation reply. -/
def investmentDisclaimer : String :=
  "Please consult with a financial advisor before making investment decisions."

/-- `formatPortfolioResponse` of the `ChatInterface` component.  `fmt` is
the host environment behind `total_investment.toLocaleString()`: with no
locale argument that call formats in the host default locale, so the
function is parametrised by it.  All other numbers go through `toFixed`,
which is locale-independent. -/
def formatPortfolioResponse (fmt : ℚ → String) (result : RecommendationResponse) : String :=
  "Here\x27s your personalized portfolio recommendation:\n\n**Portfolio Summary:**\n• Total Investment: $"
  ++ fmt result.portfolio.total_investment
  ++ "\n• Expected Annual Return: " ++ toFixed 2 (result.portfolio.expected_return * 100)
  ++ "%\n• Portfolio Volatility: " ++ toFixed 2 (result.portfolio.volatility * 100)
  ++ "%\n• Sharpe Ratio: " ++ toFixed 2 result.portfolio.sharpe_ratio
  ++ "\n\n**Top Allocations:**\n" ++ allocationsSection result.portfolio
  ++ "\n\n**Historical Performance:**\n• Total Return: " ++ toFixed 2 (result.backtest.total_return * 100)
  ++ "%\n• Annual Return: " ++ toFixed 2 (result.backtest.annual_return * 100)
  ++ "%\n• Max Drawdown: " ++ toFixed 2 (result.backtest.max_drawdown * 100)
  ++ "%\n\n" ++ investmentDisclaimer

/-! ## Intent classification and dispatch (`processMessage`) -/

/-- Rule 1 of the classifier, over the lower-cased message. -/
def initGuard (l : String) : Bool := scontains l "initialize" || scontains l "start"

/-- Rule 2 of the classifier, over the lower-cased message. -/
def addGuard (l : String) : Bool :=
  scontains l "add" && (scontains l "stock" || scontains l "[")

/-- Rule 3 of the classifier, over the lower-cased message. -/
def recGuard (l : String) : Bool :=
  scontains l "recommend" || scontains l "portfolio" || scontains l "invest"

/-- Rule 4 of the classifier, over the lower-cased message. -/
def listGuard (l : String) : Bool := scontains l "list" && scontains l "stock"

/-- The closed intent enumeration of the spec; `initializeSystem` is the
spec's `Initialize`. -/
inductive Intent where
  | initializeSystem
  | addStocks
  | getRecommendations
  | listStocks
  | unknown
deriving DecidableEq

/-- The intent classification implemented by the guard chain of
`processMessage`: the first matching keyword rule wins. -/
def classify (message : String) : Intent :=
  let l := lowerS message
  if initGuard l then .initializeSystem
  else if addGuard l then .addStocks
  else if recGuard l then .getRecommendations
  else if listGuard l then .listStocks
  else .unknown

/-- An outbound backend call, with its arguments. -/
inductive Op where
  | initializeSystem
  | addCustomStocks (stocks : List String)
  | getRecommendations (riskTolerance : String) (investmentAmount : Option ℚ)
  | listCustomStocks
deriving DecidableEq

/-- The backend operation a message triggers (`none` = no call, the
default help reply).  The `AddStocks` branch of `processMessage` only
commits when extraction is nonempty; with an empty extraction control
falls through to the later rules, which the merged guard reproduces. -/
def dispatchOp (message : String) : Option Op :=
  let l := lowerS message
  if initGuard l then some .initializeSystem
  else if addGuard l && !(extractStockSymbols message).isEmpty then
    some (.addCustomStocks (extractStockSymbols message))
  else if recGuard l then
    some (.getRecommendations (extractRiskTolerance l) (extractInvestmentAmount message))
  else if listGuard l then some .listCustomStocks
  else none

/-- Success reply of the Initialize branch. -/
def initReplyOk (result : ClusterResponse) : String :=
  "System initialized successfully! I\x27ve analyzed " ++ toString result.clusters.length
  ++ " stock clusters. You can now get personalized recommendations or add custom stocks to your portfolio."

/-- Reply of the AddStocks branch on `success: true`. -/
def addReply (result : CustomStockResponse) : String :=
  "Successfully added " ++ toString (match result.added with | some l => l.length | none => 0)
  ++ " custom stocks to your portfolio."
  ++ (match result.added with
      | some l => if 0 < l.length then " Added: " ++ String.intercalate ", " l ++ "." else ""
      | none => "")
  ++ (match result.failed with
      | some l => if 0 < l.length then " Failed: " ++ String.intercalate ", " l ++ "." else ""
      | none => "")
  ++ " Total custom stocks: " ++ toString result.total_custom_stocks ++ "."

/-- Reply of the ListStocks branch on `success: true`. -/
def listReplyOk (result : ListStocksResponse) : String :=
  if 0 < result.custom_stocks.length then
    "Your custom stocks: " ++ String.intercalate ", " result.custom_stocks
    ++ ". Total: " ++ toString result.total_custom_stocks
    ++ " custom stocks out of " ++ toString result.total_available_stocks ++ " available."
  else
    "No custom stocks added yet. You can add stocks using: \"Add the following stocks: [SYMBOL1, SYMBOL2, ...]\""

/-- Fixed prefix of the default help reply. -/
def helpPre : String := "I understand you want help with: \""

/-- Fixed suffix of the default help reply. -/
def helpSuf : String :=
  "\". I can assist you with:\n\n• Adding custom stocks: \"Add the following stocks: [AAPL, MSFT, GOOGL]\"\n• Getting recommendations: \"I want conservative recommendations for $10,000\"\n• Analyzing clusters: \"Show me the market clusters\"\n• Managing stocks: \"List my custom stocks\"\n\nWhat specific action would you like me to help you with?"

/-- The default help reply, echoing the original message. -/
def defaultResponse (message : String) : String := helpPre ++ message ++ helpSuf

/-- `processMessage` of the `ChatInterface` component.  `.error e` models
`throw new Error(e)` escaping to `handleSubmit`; `.ok r` is the returned
reply text.  (The `onPortfolioUpdate` side effect of the success path of
GetRecommendations does not touch the transcript and is not modelled.) -/
def processMessage (fmt : ℚ → String) (b : Backend) (message : String) : Except String String :=
  let lowerMessage := lowerS message
  if initGuard lowerMessage then
    match b.initializeSystem with
    | .ok result =>
      if result.success then .ok (initReplyOk result)
      else .ok ("Initialization failed: " ++ jsInterp result.message)
    | .error _ => .error "Failed to initialize the system"
  else if addGuard lowerMessage && !(extractStockSymbols message).isEmpty then
    match b.addCustomStocks (extractStockSymbols message) with
    | .ok result =>
      if result.success then .ok (addReply result)
      else .ok ("Failed to add stocks: " ++ result.message)
    | .error _ => .error "Failed to add custom stocks"
  else if recGuard lowerMessage then
    match b.getRecommendations (extractRiskTolerance lowerMessage) (extractInvestmentAmount message) with
    | .ok result =>
      if result.success then .ok (formatPortfolioResponse fmt result)
      else .ok ("Failed to get recommendations: " ++ jsInterp result.message)
    | .error _ => .error "Failed to get recommendations"
  else if listGuard lowerMessage then
    match b.listCustomStocks with
    | .ok result =>
      if result.success then .ok (listReplyOk result)
      else .ok "Failed to get custom stocks list"
    | .error _ => .error "Failed to get custom stocks list"
  else
    .ok (defaultResponse message)

/-! ## The conversation transcript (`handleSubmit`) -/

/-- Message roles; ids and timestamps are opaque to every claim and are
not modelled. -/
inductive Role where
  | user
  | agent
deriving DecidableEq

/-- One transcript entry. -/
structure Msg where
  role : Role
  content : String
deriving DecidableEq

/-- The `ChatInterface` state touched by `handleSubmit`. -/
structure ChatState where
  messages : List Msg
  isLoading : Bool
  error : Option String

/-- The fixed apology appended when `processMessage` throws. -/
def apologyReply : String :=
  "I apologize, but I encountered an error. Please try again or check if the API is running."

/-- `handleSubmit` of the `ChatInterface` component, from pressing send to
the settled state: guard on blank input or an in-flight request, append
the user message, then append either the reply or the apology (the latter
alongside the diagnostic `error` banner). -/
def handleSubmit (fmt : ℚ → String) (b : Backend) (st : ChatState) (inputValue : String) : ChatState :=
  if (jsTrimS inputValue).isEmpty || st.isLoading then st
  else
    let content := jsTrimS inputValue
    match processMessage fmt b content with
    | .ok response =>
      { messages := st.messages ++ [⟨.user, content⟩, ⟨.agent, response⟩],
        isLoading := false, error := none }
    | .error e =>
      { messages := st.messages ++ [⟨.user, content⟩, ⟨.agent, apologyReply⟩],
        isLoading := false, error := some e }

/-! ## Concrete fixtures used by witnesses and counterexamples -/

/-- A recommendation result with the allocations list replaced by a
longer one: `extra` entries appended after the received ones. -/
def withExtraAllocations (r : RecommendationResponse)
    (extra : List (String × PortfolioAllocation)) : RecommendationResponse :=
  { r with portfolio := { r.portfolio with allocations := r.portfolio.allocations ++ extra } }

/-- A host locale formatter that is never consulted. -/
def fmt0 : ℚ → String := fun _ => ""

/-- A backend whose every call rejects. -/
def bTriv : Backend :=
  ⟨Except.error (), fun _ => Except.error (), fun _ _ => Except.error (), Except.error ()⟩

/-- An idle chat state with an empty transcript. -/
def st0 : ChatState := ⟨[], false, none⟩

/-- A `success: false` recommendation response carrying the message
`"rate limited"`. -/
def recFail : RecommendationResponse :=
  ⟨false, ⟨[], 0, 0, 0, none, none, 0, none⟩, ⟨0, 0, 0, 0, 0, [], [], [], []⟩,
   [], some "rate limited"⟩

/-- A backend whose recommendation call reports `recFail` and whose other
calls reject. -/
def bFailRec : Backend :=
  ⟨Except.error (), fun _ => Except.error (), fun _ _ => Except.ok recFail, Except.error ()⟩

/-- `Number.prototype.toLocaleString()` of the host under the `en-US`
default locale, at the one value the counterexample feeds it:
`(10000).toLocaleString()` is `"10,000"` there. -/
def localeUS : ℚ → String := fun _ => "10,000"

/-- The same host call under the `de-DE` default locale:
`(10000).toLocaleString()` is `"10.000"` there. -/
def localeDE : ℚ → String := fun _ => "10.000"

/-- A one-entry allocation map. -/
def cexAllocs : List (String × PortfolioAllocation) := [("AAPL", ⟨1/2, 5000, 25⟩)]

/-- A successful recommendation response with one allocation and
`total_investment = 10000`. -/
def cexRec : RecommendationResponse :=
  ⟨true, ⟨cexAllocs, 1/10, 3/20, 5/4, none, none, 10000, none⟩,
   ⟨1/5, 1/10, 3/20, 1, 2/25, [], [], [], []⟩, ["AAPL"], none⟩

/-- A five-entry allocation map. -/
def cexAllocs5 : List (String × PortfolioAllocation) :=
  [("AA", ⟨1/10, 1000, 1⟩), ("BB", ⟨1/10, 1000, 2⟩), ("CC", ⟨1/10, 1000, 3⟩),
   ("DD", ⟨1/10, 1000, 4⟩), ("EE", ⟨1/10, 1000, 5⟩)]

/-- A successful recommendation response with five allocations. -/
def cexRec5 : RecommendationResponse :=
  ⟨true, ⟨cexAllocs5, 1/10, 3/20, 5/4, none, none, 10000, none⟩,
   ⟨1/5, 1/10, 3/20, 1, 2/25, [], [], [], []⟩, ["AA"], none⟩

/-- A sixth allocation to append. -/
def extraAlloc : List (String × PortfolioAllocation) := [("FF", ⟨1/10, 1000, 6⟩)]

/-! ## Helper lemmas -/

/-- Symbols passing the `parseStockSymbols` filter have the ticker shape:
1–5 characters, all uppercase letters. -/
theorem isValidSymbol_shape (s : String) (h : isValidSymbol s = true) :
    1 ≤ s.length ∧ s.length ≤ 5 ∧ ∀ c ∈ s.data, 'A' ≤ c ∧ c ≤ 'Z' := by
  unfold isValidSymbol matchesUpperPlus at h
  simp only [Bool.and_eq_true, decide_eq_true_eq, Bool.not_eq_true', List.isEmpty_eq_false,
    List.all_eq_true] at h
  obtain ⟨h5, hne, hall⟩ := h
  refine ⟨?_, h5, ?_⟩
  · exact List.length_pos.mpr hne
  · intro c hc
    have hu := hall c hc
    simpa [isUpperAlpha, Bool.and_eq_true, decide_eq_true_eq] using hu

/-- Every string in the insertion-ordered set built by
`parseStockSymbols` passed the filter. -/
theorem mem_symFold (cands : List String) :
    ∀ acc : List String, (∀ x ∈ acc, isValidSymbol x = true) →
      ∀ x ∈ cands.foldl
        (fun acc s => if isValidSymbol s && !(acc.contains s) then acc ++ [s] else acc) acc,
        isValidSymbol x = true := by
  induction cands with
  | nil => intro acc h x hx; exact h x hx
  | cons c t ih =>
    intro acc h x hx
    rw [List.foldl_cons] at hx
    refine ih _ ?_ x hx
    intro y hy
    by_cases hc : (isValidSymbol c && !(acc.contains c)) = true
    · rw [if_pos hc] at hy
      rcases List.mem_append.mp hy with hy1 | hy2
      · exact h y hy1
      · rw [List.mem_singleton.mp hy2]
        simp only [Bool.and_eq_true] at hc
        exact hc.1
    · rw [if_neg hc] at hy
      exact h y hy

/-- A list without digits or commas gives the regex nothing to grab. -/
theorem grabNum_of_all_not (l : List Char)
    (h : l.all (fun c => !isDigitComma c) = true) : grabNum l = none := by
  have ht : l.takeWhile isDigitComma = [] := by
    cases l with
    | nil => rfl
    | cons c t =>
      rw [List.all_cons, Bool.and_eq_true] at h
      have hc : isDigitComma c = false := by simpa using h.1
      simp [List.takeWhile_cons, hc]
  unfold grabNum
  rw [ht]
  rfl

/-- On a text without digits or commas, the amount regex never matches. -/
theorem amountScan_of_all_not (l : List Char)
    (h : l.all (fun c => !isDigitComma c) = true) : amountScan l = none := by
  induction l with
  | nil => rfl
  | cons c t ih =>
    have h0 := h
    rw [List.all_cons, Bool.and_eq_true] at h0
    unfold amountScan
    by_cases hd : c = '$'
    · rw [if_pos hd, grabNum_of_all_not t h0.2]
      exact ih h0.2
    · rw [if_neg hd, grabNum_of_all_not (c :: t) h]
      exact ih h0.2

/-- Evaluation of the amount extractor on `"$1,000,000"`: the capture is
`1,000,000`, one comma is removed, and `parseFloat` stops at the next. -/
theorem amount_million_eval : extractInvestmentAmount "$1,000,000" = some 1000 := by
  have h : amountScan "$1,000,000".data
      = some ['1', ',', '0', '0', '0', ',', '0', '0', '0'] := by decide
  have h2 : parseFloatParts (removeFirstComma ['1', ',', '0', '0', '0', ',', '0', '0', '0'])
      = some (['1', '0', '0', '0'], []) := by decide
  have d1 : digitsToNat ['1', '0', '0', '0'] = 1000 := by decide
  have d2 : digitsToNat ([] : List Char) = 0 := by decide
  unfold extractInvestmentAmount
  rw [h]
  simp only [jsParseFloat, h2, Option.map, d1, d2]
  norm_num

/-- Evaluation of the amount extractor on `"hello, world"`: the regex
matches the bare comma, the comma is removed, and `parseFloat` of the
empty string is `NaN`. -/
theorem amount_comma_nan : extractInvestmentAmount "hello, world" = none := by decide

/-- When no classifier rule fires, `processMessage` calls nothing and
returns the default help reply. -/
theorem processMessage_of_unknown (fmt : ℚ → String) (b : Backend) (m : String)
    (h : classify m = Intent.unknown) :
    processMessage fmt b m = Except.ok (defaultResponse m) := by
  unfold classify at h
  unfold processMessage
  rcases h1 : initGuard (lowerS m) with _ | _
  · rcases h2 : addGuard (lowerS m) with _ | _
    · rcases h3 : recGuard (lowerS m) with _ | _
      · rcases h4 : listGuard (lowerS m) with _ | _
        · simp [h1, h2, h3, h4]
        · simp [h1, h2, h3, h4] at h
      · simp [h1, h2, h3] at h
    · simp [h1, h2] at h
  · simp [h1] at h

/-! ## Claims -/

/-- C1 counterexample.  The claim's reference algorithm (filter to
`^[A-Z]{1,5}$`, de-duplicate, bare-token scan only as a fallback) is
followed by neither extraction routine: the chat extractor keeps the
duplicate `"AAPL"` from `"[AAPL, AAPL, msft]"` instead of yielding
exactly `["AAPL", "MSFT"]`, and the utility parser also runs the
bare-token scan when a bracket is present, picking up `"IBM"` outside
the brackets of `"[msft] IBM"` where the reference algorithm stops at
`["MSFT"]`. -/
theorem c1_cex :
    extractStockSymbols "[AAPL, AAPL, msft]" = ["AAPL", "AAPL", "MSFT"]
    ∧ parseStockSymbols "[msft] IBM" = ["MSFT", "IBM"] :=
  ⟨by decide, by decide⟩

/-- C1 as amended.  The chat extractor `extractStockSymbols` returns the
first bracketed list's comma-split tokens trimmed and upper-cased, with
no filtering and no de-duplication, and returns `[]` when no bracket is
present — bare uppercase tokens are never a fallback.  The utility
parser `parseStockSymbols` filters to at most five uppercase letters and
de-duplicates preserving insertion order — on `"[AAPL, AAPL, msft]"` it
does yield `["AAPL", "MSFT"]` — but its bare-token scan always runs over
the whole text in addition to the bracket scan. -/
theorem c1_amended :
    extractStockSymbols "[AAPL, AAPL, msft]" = ["AAPL", "AAPL", "MSFT"]
    ∧ parseStockSymbols "[AAPL, AAPL, msft]" = ["AAPL", "MSFT"]
    ∧ parseStockSymbols "[msft] IBM" = ["MSFT", "IBM"]
    ∧ extractStockSymbols "add stocks AAPL MSFT" = [] :=
  ⟨by decide, by decide, by decide, by decide⟩

/-- C4 counterexample.  The chat extractor applies no validation at all:
on the claim's adversarial input it emits both `"TOOLONGSYM"` and
`"A1"`, and even the validating utility parser returns neither `[]` nor
`["BB"]` there. -/
theorem c4_cex :
    "TOOLONGSYM" ∈ extractStockSymbols "[a1, TOOLONGSYM, bb]"
    ∧ parseStockSymbols "[a1, TOOLONGSYM, bb]" ≠ []
    ∧ parseStockSymbols "[a1, TOOLONGSYM, bb]" ≠ ["BB"] :=
  ⟨by decide, by decide, by decide⟩

/-- C4 as amended.  The utility parser `parseStockSymbols` does satisfy
the shape invariant — every emitted symbol has 1–5 characters, all
uppercase letters, with case-folding before validation — but on
`"[a1, TOOLONGSYM, bb]"` it yields `["BB", "TOOLO", "NGSYM"]`, because
the always-on bare-token scan chops long uppercase runs into chunks of
five that pass the filter.  The chat extractor `extractStockSymbols`
validates nothing and yields `["A1", "TOOLONGSYM", "BB"]` there. -/
theorem c4_amended :
    (∀ (input s : String), s ∈ parseStockSymbols input →
      1 ≤ s.length ∧ s.length ≤ 5 ∧ ∀ c ∈ s.data, 'A' ≤ c ∧ c ≤ 'Z')
    ∧ parseStockSymbols "[a1, TOOLONGSYM, bb]" = ["BB", "TOOLO", "NGSYM"]
    ∧ extractStockSymbols "[a1, TOOLONGSYM, bb]" = ["A1", "TOOLONGSYM", "BB"] := by
  refine ⟨?_, by decide, by decide⟩
  intro input s hs
  exact isValidSymbol_shape s (mem_symFold (symbolCandidates input) [] (by simp) s hs)

/-- C4 witness: the shape invariant of `c4_amended`, instantiated at the
symbol `"BB"` extracted from the adversarial input. -/
theorem c4_witness :
    1 ≤ "BB".length ∧ "BB".length ≤ 5 ∧ ∀ c ∈ "BB".data, 'A' ≤ c ∧ c ≤ 'Z' :=
  c4_amended.1 "[a1, TOOLONGSYM, bb]" "BB" (by decide)

/-- C5 counterexample.  `"hello, world"` has no digits, yet the regex
matches its bare comma, `replace(',', '')` empties the capture and
`parseFloat` yields `NaN` (`none`) rather than the default `10000`; and
on `"$1,000,000"` only the first comma is removed, so `parseFloat` stops
at the second and yields `1000`, not the de-commaed `1000000`. -/
theorem c5_cex :
    extractInvestmentAmount "hello, world" = none
    ∧ extractInvestmentAmount "$1,000,000" = some 1000 :=
  ⟨amount_comma_nan, amount_million_eval⟩

/-- C5 as amended.  The extractor matches an optional `$` followed by a
nonempty run of digits-or-commas with an optional two-decimal fraction,
removes only the first comma, and parses with `parseFloat`, which stops
at any remaining comma (`"$1,000,000"` gives `1000`) and yields `NaN`
when the match was a bare comma (`"hello, world"`); `"$10,000.50"` gives
`10000.5`, and only a text containing neither digit nor comma falls back
to the default `10000`. -/
theorem c5_amended :
    extractInvestmentAmount "$10,000.50" = some (10000.5 : ℚ)
    ∧ extractInvestmentAmount "$1,000,000" = some 1000
    ∧ extractInvestmentAmount "hello, world" = none
    ∧ (∀ t : String, t.data.all (fun c => !isDigitComma c) = true →
        extractInvestmentAmount t = some 10000) := by
  refine ⟨?_, amount_million_eval, amount_comma_nan, ?_⟩
  · have h : amountScan "$10,000.50".data
        = some ['1', '0', ',', '0', '0', '0', '.', '5', '0'] := by decide
    have h2 : parseFloatParts (removeFirstComma ['1', '0', ',', '0', '0', '0', '.', '5', '0'])
        = some (['1', '0', '0', '0', '0'], ['5', '0']) := by decide
    have d1 : digitsToNat ['1', '0', '0', '0', '0'] = 10000 := by decide
    have d2 : digitsToNat ['5', '0'] = 50 := by decide
    unfold extractInvestmentAmount
    rw [h]
    simp only [jsParseFloat, h2, Option.map, d1, d2]
    norm_num
  · intro t ht
    unfold extractInvestmentAmount
    rw [amountScan_of_all_not t.data ht]

/-- C5 witness: the no-digit-no-comma default of `c5_amended`,
instantiated at `"no amount mentioned"`. -/
theorem c5_witness : extractInvestmentAmount "no amount mentioned" = some 10000 :=
  c5_amended.2.2.2 "no amount mentioned" (by decide)

/-- C8 — risk-tolerance extraction is total: every input maps to exactly
one of the three categories, with the rules read in the order the chain
checks them — `"conservative"`/`"safe"` first, then
`"aggressive"`/`"growth"`, and `"balanced"` for any other text. -/
theorem c8_risk_total (t : String) :
    (extractRiskTolerance t = "conservative" ∨ extractRiskTolerance t = "balanced" ∨
      extractRiskTolerance t = "aggressive")
    ∧ ((scontains t "conservative" || scontains t "safe") = true →
        extractRiskTolerance t = "conservative")
    ∧ ((scontains t "conservative" || scontains t "safe") = false →
        (scontains t "aggressive" || scontains t "growth") = true →
        extractRiskTolerance t = "aggressive")
    ∧ ((scontains t "conservative" || scontains t "safe") = false →
        (scontains t "aggressive" || scontains t "growth") = false →
        extractRiskTolerance t = "balanced") := by
  unfold extractRiskTolerance
  rcases h1 : (scontains t "conservative" || scontains t "safe") with _ | _ <;>
    rcases h2 : (scontains t "aggressive" || scontains t "growth") with _ | _ <;>
    simp [h1, h2]

/-- C8 witness: `c8_risk_total` at `"text on growth stocks"`, whose only
trigger word is `"growth"`, giving `"aggressive"`. -/
theorem c8_witness : extractRiskTolerance "text on growth stocks" = "aggressive" :=
  (c8_risk_total "text on growth stocks").2.2.1 (by decide) (by decide)

/-- C10 — the conservative trigger words are checked before the
aggressive ones, so any text containing trigger words of both categories
maps to `"conservative"`, never `"aggressive"`. -/
theorem c10_conservative_first (t : String)
    (h1 : (scontains t "conservative" || scontains t "safe") = true)
    (_h2 : (scontains t "aggressive" || scontains t "growth") = true) :
    extractRiskTolerance t = "conservative" := by
  unfold extractRiskTolerance
  rw [if_pos h1]

/-- C10 witness: `c10_conservative_first` at `"safe growth"`, which
contains a trigger word of each category. -/
theorem c10_witness : extractRiskTolerance "safe growth" = "conservative" :=
  c10_conservative_first "safe growth" (by decide) (by decide)

/-- C3 — a lower-cased message containing `"add"` and `"stock"` together
with `"recommend"` or `"portfolio"`, and containing neither
`"initialize"` nor `"start"`, classifies as AddStocks: the AddStocks
rule is checked before the GetRecommendations rule. -/
theorem c3_add_before_recommend (m : String)
    (hadd : scontains (lowerS m) "add" = true)
    (hstock : scontains (lowerS m) "stock" = true)
    (_hrp : scontains (lowerS m) "recommend" = true ∨ scontains (lowerS m) "portfolio" = true)
    (hni : scontains (lowerS m) "initialize" = false)
    (hns : scontains (lowerS m) "start" = false) :
    classify m = Intent.addStocks := by
  unfold classify
  have h1 : initGuard (lowerS m) = false := by
    unfold initGuard
    rw [hni, hns]
    rfl
  have h2 : addGuard (lowerS m) = true := by
    unfold addGuard
    rw [hadd, hstock]
    rfl
  simp [h1, h2]

/-- C3 witness: `c3_add_before_recommend` at
`"add aapl stock to my portfolio"`. -/
theorem c3_witness : classify "add aapl stock to my portfolio" = Intent.addStocks :=
  c3_add_before_recommend "add aapl stock to my portfolio"
    (by decide) (by decide) (Or.inr (by decide)) (by decide) (by decide)

/-- C2 counterexample.  `"add stock to my portfolio"` satisfies the
AddStocks guard and its symbol extraction is empty, yet the dispatcher
does not fall through to the Unknown branch: it calls the backend
recommendation operation (and with an all-rejecting backend the result
is the recommendation error, not the help reply). -/
theorem c2_cex :
    classify "add stock to my portfolio" = Intent.addStocks
    ∧ extractStockSymbols "add stock to my portfolio" = []
    ∧ dispatchOp "add stock to my portfolio"
        = some (Op.getRecommendations "balanced" (some 10000))
    ∧ processMessage fmt0 bTriv "add stock to my portfolio"
        = Except.error "Failed to get recommendations" :=
  ⟨by decide, by decide, by decide, by decide⟩

/-- C2 as amended.  When the message classifies as AddStocks but symbol
extraction is empty, the dispatcher never calls the add-stocks backend
operation; control falls through to the remaining rules, so a later rule
may still call its operation, and only when neither the recommendation
rule nor the list rule matches does the dispatcher call no backend
operation and produce the Unknown-branch help reply. -/
theorem c2_amended (fmt : ℚ → String) (b : Backend) (m : String)
    (hcls : classify m = Intent.addStocks)
    (hempty : extractStockSymbols m = []) :
    (∀ syms, dispatchOp m ≠ some (Op.addCustomStocks syms))
    ∧ (recGuard (lowerS m) = false → listGuard (lowerS m) = false →
        dispatchOp m = none ∧ processMessage fmt b m = Except.ok (defaultResponse m)) := by
  have hinit : initGuard (lowerS m) = false := by
    rcases hi : initGuard (lowerS m) with _ | _
    · rfl
    · unfold classify at hcls
      simp [hi] at hcls
  constructor
  · intro syms
    unfold dispatchOp
    rcases hr : recGuard (lowerS m) with _ | _ <;>
      rcases hl : listGuard (lowerS m) with _ | _ <;>
      simp [hinit, hempty, hr, hl]
  · intro hr hl
    constructor
    · unfold dispatchOp
      simp [hinit, hempty, hr, hl]
    · unfold processMessage
      simp [hinit, hempty, hr, hl]

/-- C2 witness: `c2_amended` at `"add stock"`, where no later rule
matches, giving no backend call and the help reply. -/
theorem c2_witness :
    dispatchOp "add stock" = none
    ∧ processMessage fmt0 bTriv "add stock" = Except.ok (defaultResponse "add stock") :=
  (c2_amended fmt0 bTriv "add stock" (by decide) (by decide)).2 (by decide) (by decide)

/-- C7 — when the dispatched operation is GetRecommendations and the
backend answers `success: false` with a message, the agent reply is
exactly `"Failed to get recommendations: "` followed by that message
verbatim. -/
theorem c7_failure_verbatim (fmt : ℚ → String) (b : Backend) (m rt : String) (amt : Option ℚ)
    (r : RecommendationResponse) (msg : String)
    (hdisp : dispatchOp m = some (Op.getRecommendations rt amt))
    (hcall : b.getRecommendations rt amt = Except.ok r)
    (hfail : r.success = false)
    (hmsg : r.message = some msg) :
    processMessage fmt b m = Except.ok ("Failed to get recommendations: " ++ msg) := by
  unfold dispatchOp at hdisp
  unfold processMessage
  rcases h1 : initGuard (lowerS m) with _ | _
  · rcases h2 : (addGuard (lowerS m) && !(extractStockSymbols m).isEmpty) with _ | _
    · rcases h3 : recGuard (lowerS m) with _ | _
      · rcases h4 : listGuard (lowerS m) with _ | _ <;> simp [h1, h2, h3, h4] at hdisp
      · simp only [h1, h2, h3, Bool.false_eq_true, if_false, if_true] at hdisp ⊢
        simp only [Option.some.injEq, Op.getRecommendations.injEq] at hdisp
        obtain ⟨ha, hb⟩ := hdisp
        rw [ha, hb, hcall]
        simp [hfail, hmsg, jsInterp]
    · simp [h1, h2] at hdisp
  · simp [h1] at hdisp

/-- C7 witness: `c7_failure_verbatim` at the message `"recommend"`
against a backend reporting `success: false` with `"rate limited"`,
giving exactly `"Failed to get recommendations: rate limited"`. -/
theorem c7_witness :
    processMessage fmt0 bFailRec "recommend"
      = Except.ok ("Failed to get recommendations: " ++ "rate limited") :=
  c7_failure_verbatim fmt0 bFailRec "recommend" "balanced" (some 10000) recFail "rate limited"
    (by decide) rfl rfl rfl

/-- C6 — every effective user submission (nonblank input, no request in
flight) appends exactly the user message and one agent reply to the
transcript; a thrown operation call makes the reply the fixed apology
and additionally records the diagnostic error; a successful dispatch
makes the reply the dispatcher's text; and an unrecognized message gets
the help reply, which echoes the submitted text. -/
theorem c6_reply_always (fmt : ℚ → String) (b : Backend) (st : ChatState) (input : String)
    (hne : (jsTrimS input).isEmpty = false)
    (hld : st.isLoading = false) :
    ∃ reply,
      (handleSubmit fmt b st input).messages
        = st.messages ++ [⟨Role.user, jsTrimS input⟩, ⟨Role.agent, reply⟩]
      ∧ (∀ e, processMessage fmt b (jsTrimS input) = Except.error e →
          reply = apologyReply ∧ (handleSubmit fmt b st input).error = some e)
      ∧ (∀ r, processMessage fmt b (jsTrimS input) = Except.ok r → reply = r)
      ∧ (classify (jsTrimS input) = Intent.unknown →
          ∃ p q, reply = p ++ jsTrimS input ++ q) := by
  have hH : handleSubmit fmt b st input
      = match processMessage fmt b (jsTrimS input) with
        | .ok response =>
          { messages := st.messages ++ [⟨Role.user, jsTrimS input⟩, ⟨Role.agent, response⟩],
            isLoading := false, error := none }
        | .error e =>
          { messages := st.messages ++ [⟨Role.user, jsTrimS input⟩, ⟨Role.agent, apologyReply⟩],
            isLoading := false, error := some e } := by
    unfold handleSubmit
    rw [hne, hld]
    rfl
  rcases hp : processMessage fmt b (jsTrimS input) with e | r
  · rw [hp] at hH
    refine ⟨apologyReply, by rw [hH], ?_, ?_, ?_⟩
    · intro e' he'
      injection he' with h
      subst h
      refine ⟨rfl, ?_⟩
      rw [hH]
    · intro r hr
      exact absurd hr (by simp)
    · intro hu
      have hd := processMessage_of_unknown fmt b (jsTrimS input) hu
      rw [hp] at hd
      exact absurd hd (by simp)
  · rw [hp] at hH
    refine ⟨r, by rw [hH], ?_, ?_, ?_⟩
    · intro e' he'
      exact absurd he' (by simp)
    · intro r' hr'
      exact Except.ok.inj hr'
    · intro hu
      have hd := processMessage_of_unknown fmt b (jsTrimS input) hu
      rw [hp] at hd
      injection hd with h
      exact ⟨helpPre, helpSuf, h⟩

/-- C6 witness: `c6_reply_always` at the input `"hello"` on an idle empty
transcript against an all-rejecting backend. -/
theorem c6_witness :
    ∃ reply,
      (handleSubmit fmt0 bTriv st0 "hello").messages
        = st0.messages ++ [⟨Role.user, jsTrimS "hello"⟩, ⟨Role.agent, reply⟩]
      ∧ (∀ e, processMessage fmt0 bTriv (jsTrimS "hello") = Except.error e →
          reply = apologyReply ∧ (handleSubmit fmt0 bTriv st0 "hello").error = some e)
      ∧ (∀ r, processMessage fmt0 bTriv (jsTrimS "hello") = Except.ok r → reply = r)
      ∧ (classify (jsTrimS "hello") = Intent.unknown →
          ∃ p q, reply = p ++ jsTrimS "hello" ++ q) :=
  c6_reply_always fmt0 bTriv st0 "hello" (by decide) rfl

/-- C9 counterexample.  The recommendation reply is not identical across
viewer locales: `total_investment.toLocaleString()` carries no locale
argument, so the host default locale formats it — `en-US` renders 10000
as `"10,000"` while `de-DE` renders `"10.000"` — and the two replies
differ. -/
theorem c9_cex :
    formatPortfolioResponse localeUS cexRec ≠ formatPortfolioResponse localeDE cexRec := by
  intro h
  have h2 := congrArg String.data h
  simp only [formatPortfolioResponse, localeUS, localeDE, String.data_append,
    List.append_assoc] at h2
  have h3 := List.append_cancel_left h2
  have h4 := List.append_cancel_right h3
  exact absurd h4 (by decide)

/-- C9 as amended.  Every recommendation reply ends with the fixed
disclaimer sentence verbatim; the Top Allocations section renders at
most the first five allocations in the order received, each through
`allocationLine` (`• SYMBOL: weight% (N shares)`, weight via the
locale-independent `toFixed`); allocations beyond the fifth never change
the reply.  The total-investment figure, however, is formatted by the
host default locale, so the reply does depend on the viewer locale. -/
theorem c9_amended (fmt : ℚ → String) (r : RecommendationResponse)
    (extra : List (String × PortfolioAllocation)) :
    (∃ p, formatPortfolioResponse fmt r = p ++ investmentDisclaimer)
    ∧ ((r.portfolio.allocations.take 5).map allocationLine).length
        = min 5 r.portfolio.allocations.length
    ∧ (∀ i, i < 5 → ((r.portfolio.allocations.take 5).map allocationLine)[i]?
        = Option.map allocationLine r.portfolio.allocations[i]?)
    ∧ (5 ≤ r.portfolio.allocations.length →
        formatPortfolioResponse fmt (withExtraAllocations r extra)
          = formatPortfolioResponse fmt r) := by
  refine ⟨⟨_, rfl⟩, ?_, ?_, ?_⟩
  · simp [List.length_take]
  · intro i hi
    rw [List.getElem?_map, List.getElem?_take_of_lt hi]
  · intro h5
    have htake : ((withExtraAllocations r extra).portfolio.allocations).take 5
        = (r.portfolio.allocations).take 5 := by
      show (r.portfolio.allocations ++ extra).take 5 = _
      exact List.take_append_of_le_length h5
    unfold formatPortfolioResponse allocationsSection
    rw [htake]
    rfl

/-- C9 witness: `c9_amended` at a five-allocation response under the
`en-US` host formatter — the reply ends with the disclaimer, and
appending a sixth allocation leaves the reply unchanged. -/
theorem c9_witness :
    (∃ p, formatPortfolioResponse localeUS cexRec5 = p ++ investmentDisclaimer)
    ∧ formatPortfolioResponse localeUS (withExtraAllocations cexRec5 extraAlloc)
        = formatPortfolioResponse localeUS cexRec5 :=
  ⟨(c9_amended localeUS cexRec5 extraAlloc).1,
   (c9_amended localeUS cexRec5 extraAlloc).2.2.2 (by decide)⟩
